import Mathlib

/-!
Verification of the similarity-recommendation core of the bookstore demo
(`app/app.py`).

The Python functions `get_all_books`, `get_book_rating`, `get_book_embedding`,
`get_book_recommendations` and `get_rating_analytics` are shallowly embedded
as Lean functions.  The external PostgreSQL store is modelled by a `DB` value
(lists of book and rating rows) together with executable translations of the
SQL queries the Python code sends to it; SQL numeric values are modelled by
`ℚ` (floats are not given an IEEE semantics; none of the verified properties
depends on rounding).  A store round trip that may raise is modelled by an
`Except String` input (`.error e` plays the role of a raised exception), and
each Python function returns, next to its result, the list of messages it
passed to `st.error`, so that error reporting is observable.

Rows coming back from the database driver are modelled as lists of `Cell`s,
which keeps Python's dynamic behaviour observable: reading column 3 of a
3-column row (`row[3]`) fails, and truthiness tests (`if row[3]`) follow
Python's rules for `None`, numbers and strings.
-/

namespace BookstoreApp

/-- A value in a fetched database row: SQL integers, text, numerics and NULL.
Python receives these as `int`, `str`, `Decimal`/`float` and `None`. -/
inductive Cell where
  | nat : Nat → Cell
  | str : String → Cell
  | rat : ℚ → Cell
  | null : Cell
deriving DecidableEq

/-- A fetched row, as the Python DB driver hands it over: a tuple of values,
indexed positionally. -/
abbrev Row := List Cell

/-- Python truthiness of a cell: `None`, `0` and `""` are falsy. -/
def Cell.truthy : Cell → Prop
  | .nat n => n ≠ 0
  | .str s => s ≠ ""
  | .rat q => q ≠ 0
  | .null => False

instance (c : Cell) : Decidable c.truthy :=
  match c with
  | .nat n => inferInstanceAs (Decidable (n ≠ 0))
  | .str s => inferInstanceAs (Decidable (s ≠ ""))
  | .rat q => inferInstanceAs (Decidable (q ≠ 0))
  | .null => inferInstanceAs (Decidable False)

/-- Using a cell in arithmetic (`1 - row[2]`): numbers work, `None` and
strings raise a `TypeError` (modelled as `none`). -/
def Cell.asNum : Cell → Option ℚ
  | .nat n => some (n : ℚ)
  | .rat q => some q
  | .str _ => none
  | .null => none

/-! ### Decimal-string parsing (Python `float(...)` on the strings that occur
in the embedding encoding: optional sign, digits, optional fraction part). -/

/-- Value of a decimal digit character, `none` on a non-digit. -/
def digitVal (c : Char) : Option Nat :=
  if c.isDigit then some (c.toNat - 48) else none

/-- Reads a non-empty digit string left to right; `none` if any character is
not a digit.  (On the empty list it yields `0`; callers reject that case.) -/
def natOfDigits (cs : List Char) : Option Nat :=
  cs.foldl
    (fun acc c =>
      match acc, digitVal c with
      | some n, some d => some (10 * n + d)
      | _, _ => none)
    (some 0)

/-- Unsigned part of Python `float(...)` on a trimmed string: digits with an
optional single decimal point, at least one digit overall.  (Exponents,
`inf`/`nan` and underscore separators are not modelled; the embedding
encodings under verification never use them.) -/
def parseUnsigned (cs : List Char) : Option ℚ :=
  let ip := cs.takeWhile (fun c => c != '.')
  let rest := cs.dropWhile (fun c => c != '.')
  match rest with
  | [] =>
    if ip.isEmpty then none
    else (natOfDigits ip).map (fun n => (n : ℚ))
  | _ :: fp =>
    if fp.any (fun c => c == '.') then none
    else if ip.isEmpty && fp.isEmpty then none
    else (natOfDigits (ip ++ fp)).map (fun n => (n : ℚ) / (10 : ℚ) ^ fp.length)

/-- Python `float(s)` on a whitespace-trimmed string: optional sign, then an
unsigned decimal; `none` models a raised `ValueError`. -/
def parseDecimalChars (cs : List Char) : Option ℚ :=
  match cs with
  | '-' :: rest => (parseUnsigned rest).map Neg.neg
  | '+' :: rest => parseUnsigned rest
  | _ => parseUnsigned cs

/-- Python `float(x)` on a cell (`float(row[3])`): numbers convert exactly,
strings are parsed, `None` raises (`none`). -/
def cellFloat : Cell → Option ℚ
  | .nat n => some (n : ℚ)
  | .rat q => some q
  | .str s => parseDecimalChars s.trim.data
  | .null => none

/-! ### The embedding decoder `get_book_embedding` (app.py lines 78-109). -/

/-- The raw value the store may hand back for the `embedding` column:
a text encoding, a native float sequence, or something unrecognized
(kept opaque, carrying a tag so "returned unchanged" is expressible). -/
inductive StoredVal where
  | text : String → StoredVal
  | seq : List ℚ → StoredVal
  | other : Nat → StoredVal
deriving DecidableEq

/-- Python truthiness of a stored value: empty strings and empty sequences
are falsy; an object of an unrecognized class is truthy. -/
def StoredVal.truthy : StoredVal → Prop
  | .text s => s ≠ ""
  | .seq xs => xs ≠ []
  | .other _ => True

instance (v : StoredVal) : Decidable v.truthy :=
  match v with
  | .text s => inferInstanceAs (Decidable (s ≠ ""))
  | .seq xs => inferInstanceAs (Decidable (xs ≠ []))
  | .other _ => inferInstanceAs (Decidable True)

/-- What `get_book_embedding` hands back: a normalized list of floats, or the
raw stored value unchanged (the fallback branch for unrecognized encodings). -/
inductive EmbResult where
  | floats : List ℚ → EmbResult
  | raw : Nat → EmbResult
deriving DecidableEq

/-- True for the bracket characters stripped by `embedding.strip('[]')`. -/
def isBracketChar (c : Char) : Bool :=
  c == '[' || c == ']'

/-- Python `s.strip('[]')`: removes leading and trailing bracket characters. -/
def stripSquareBrackets (cs : List Char) : List Char :=
  ((cs.dropWhile isBracketChar).reverse.dropWhile isBracketChar).reverse

/-- Python `s.split(',')` on the character list: splits at every comma,
keeping empty chunks (so the empty string yields one empty chunk). -/
def splitOnComma (cs : List Char) : List (List Char) :=
  cs.foldr
    (fun c acc =>
      match acc with
      | cur :: rest => if c == ',' then [] :: cur :: rest else (c :: cur) :: rest
      | [] => [[c]])
    [[]]

/-- Python `s.strip()` on a character list: drops leading and trailing
whitespace. -/
def trimChars (cs : List Char) : List Char :=
  ((cs.dropWhile Char.isWhitespace).reverse.dropWhile Char.isWhitespace).reverse

/-- Parses every chunk; `none` if any single `float(...)` raises, matching the
all-or-nothing behaviour of the list comprehension. -/
def parseAllChunks : List (List Char) → Option (List ℚ)
  | [] => some []
  | c :: cs =>
    match parseDecimalChars c, parseAllChunks cs with
    | some q, some qs => some (q :: qs)
    | _, _ => none

/-- The string-decoding branch of `get_book_embedding` (app.py lines 95-98):
`embedding_str = embedding.strip('[]')`, then
`[float(x.strip()) for x in embedding_str.split(',') if x.strip()]`. -/
def parseEmbeddingText (s : String) : Option (List ℚ) :=
  let body := stripSquareBrackets s.data
  let chunks := (splitOnComma body).map trimChars
  parseAllChunks (chunks.filter (fun c => !c.isEmpty))

/-- Embeds `get_book_embedding` (app.py lines 78-109).  The input models the
store round trip for `SELECT embedding FROM books WHERE id = %s AND embedding
IS NOT NULL`: a raised exception (`.error`), no row (`.ok none`), or the
stored value.  The second component is the list of `st.error` messages. -/
def get_book_embedding (fetched : Except String (Option StoredVal)) :
    Option EmbResult × List String :=
  match fetched with
  | .error e => (none, ["Error getting book embedding: " ++ e])
  | .ok none => (none, [])
  | .ok (some v) =>
    if v.truthy then
      match v with
      | .text s =>
        match parseEmbeddingText s with
        | some xs => (some (.floats xs), [])
        | none => (none, ["Error getting book embedding: could not convert string to float"])
      | .seq xs => (some (.floats xs), [])
      | .other t => (some (.raw t), [])
    else (none, [])

/-! ### The store model: tables and the SQL queries sent by app.py. -/

/-- A row of the `books` table as the core reads it. -/
structure Book where
  id : Nat
  title : String
  embedding : Option (List ℚ)
deriving DecidableEq

/-- A row of the `ratings` table as the core reads it (the timestamp column
only matters to the trend query, whose rows are taken as opaque input). -/
structure Rating where
  book_id : Nat
  rating : ℚ
deriving DecidableEq

/-- The visible state of the store. -/
structure DB where
  books : List Book
  ratings : List Rating
deriving DecidableEq

/-- All rating values for one book, in table order (`r.book_id = id`). -/
def ratingsOf (db : DB) (id : Nat) : List ℚ :=
  (db.ratings.filter (fun r => r.book_id == id)).map Rating.rating

/-- SQL `AVG` over non-null values: `NULL` on an empty group. -/
def avgOf (l : List ℚ) : Option ℚ :=
  if l.isEmpty then none else some (l.sum / (l.length : ℚ))

/-- The single row of `SELECT AVG(rating), COUNT(rating) FROM ratings WHERE
book_id = %s` (app.py lines 61-65). -/
def ratingAgg (db : DB) (id : Nat) : Option ℚ × Nat :=
  (avgOf (ratingsOf db id), (ratingsOf db id).length)

/-- Embeds `get_book_rating` (app.py lines 57-76).  `fetched` is the store
round trip delivering the aggregate row; `.error` models a raised exception,
which the bare `except` turns into `(None, 0)` with no `st.error` call.
`if result and result[0]:` makes a `NULL` (and a zero) average fall through
to `return None, 0`. -/
def get_book_rating (fetched : Except String (Option ℚ × Nat)) :
    (Option ℚ × Nat) × List String :=
  match fetched with
  | .error _ => ((none, 0), [])
  | .ok (avg, cnt) =>
    match avg with
    | some a => if a ≠ 0 then ((some a, cnt), []) else ((none, 0), [])
    | none => ((none, 0), [])

/-- Embeds `get_all_books` (app.py lines 39-55): on success the title-ordered
`(id, title)` rows are passed through; on a store failure it reports once via
`st.error` and returns the empty list. -/
def get_all_books (fetched : Except String (List (Nat × String))) :
    List (Nat × String) × List String :=
  match fetched with
  | .ok rows => (rows, [])
  | .error e => ([], ["Error getting books: " ++ e])

/-- The scalar subquery `(SELECT embedding FROM books WHERE id = %s)`:
the embedding of the (first) book with the given id, `NULL` if there is no
such book or its embedding is `NULL`. -/
def refEmbOf (db : DB) (id : Nat) : Option (List ℚ) :=
  (db.books.find? (fun b => b.id == id)).bind Book.embedding

/-- SQL value of `AVG` as a row cell. -/
def avgCell : Option ℚ → Cell
  | some a => .rat a
  | none => .null

/-- The candidate books of the exclusion query (app.py lines 117-126), in
table order: `WHERE b.embedding IS NOT NULL AND b.id != %s AND b.embedding
<=> ref < 2.0`.  `dist` is the store's `<=>` operator, kept as a parameter
of the model; `re` is the reference embedding.  A `NULL` reference makes
the threshold predicate `NULL`, so no row qualifies (handled by the caller). -/
def exclCandidates (db : DB) (dist : List ℚ → List ℚ → ℚ) (re : List ℚ)
    (exclId : Nat) : List (Book × List ℚ) :=
  db.books.filterMap (fun b =>
    match b.embedding with
    | some emb => if b.id ≠ exclId ∧ dist emb re < 2 then some (b, emb) else none
    | none => none)

/-- The `SELECT` list of the exclusion query for one candidate:
`b.id, b.title, distance, AVG(r.rating), COUNT(r.rating)` with `LEFT JOIN
ratings` grouped per book. -/
def exclRow (db : DB) (dist : List ℚ → List ℚ → ℚ) (re : List ℚ)
    (p : Book × List ℚ) : Row :=
  [ .nat p.1.id
  , .str p.1.title
  , .rat (dist p.2 re)
  , avgCell (avgOf (ratingsOf db p.1.id))
  , .nat (ratingsOf db p.1.id).length ]

/-- Result rows of the exclusion query: candidates in table order, capped by
`LIMIT %s` (the query has no `ORDER BY`, so the cap precedes any ranking). -/
def exclQueryRows (db : DB) (dist : List ℚ → List ℚ → ℚ) (refId exclId lim : Nat) :
    List Row :=
  match refEmbOf db refId with
  | some re => ((exclCandidates db dist re exclId).take lim).map (exclRow db dist re)
  | none => []

/-- Books with a non-null embedding, paired with it, in table order. -/
def embBooks (db : DB) : List (Book × List ℚ) :=
  db.books.filterMap (fun b =>
    match b.embedding with
    | some emb => some (b, emb)
    | none => none)

/-- Ordering of the no-exclusion query: ascending stored distance to the
reference embedding. -/
def rowOrder (dist : List ℚ → List ℚ → ℚ) (re : List ℚ)
    (p q : Book × List ℚ) : Prop :=
  dist p.2 re ≤ dist q.2 re

instance (dist : List ℚ → List ℚ → ℚ) (re : List ℚ) :
    DecidableRel (rowOrder dist re) :=
  fun p q => inferInstanceAs (Decidable (dist p.2 re ≤ dist q.2 re))

/-- Result rows of the no-exclusion query (app.py lines 131-137): only three
columns `id, title, distance`, ordered by distance, capped by `LIMIT %s`.
With a `NULL` reference embedding every distance is `NULL` (modelled by a
`NULL` distance cell, row order unchanged). -/
def noExclRows (db : DB) (dist : List ℚ → List ℚ → ℚ) (refId lim : Nat) :
    List Row :=
  match refEmbOf db refId with
  | some re =>
    (((embBooks db).insertionSort (rowOrder dist re)).map
      (fun p => [Cell.nat p.1.id, Cell.str p.1.title, Cell.rat (dist p.2 re)])).take lim
  | none =>
    ((embBooks db).map
      (fun p => [Cell.nat p.1.id, Cell.str p.1.title, Cell.null])).take lim

/-! ### The result builder and sort of `get_book_recommendations`. -/

/-- A recommendation record as built by the comprehension at app.py lines
142-151: `id` and `title` are stored as fetched, `similarity_score` is
`max(0, 1 - row[2])`, `avg_rating` is `float(row[3]) if row[3] else None`,
`num_ratings` is `row[4] if row[4] else 0`. -/
structure RecOut where
  id : Cell
  title : Cell
  similarity_score : ℚ
  avg_rating : Option ℚ
  num_ratings : Cell
deriving DecidableEq

/-- Builds one record from one row; `none` models any raised exception:
a missing column (`IndexError` on `row[3]`/`row[4]` of a 3-column row), a
non-numeric distance (`TypeError` in `1 - row[2]`), or a failing
`float(row[3])`. -/
def buildRec (row : Row) : Option RecOut :=
  match row.get? 0, row.get? 1, row.get? 2, row.get? 3, row.get? 4 with
  | some c0, some c1, some c2, some c3, some c4 =>
    match c2.asNum with
    | some d =>
      match (if c3.truthy then (cellFloat c3).map some else some none) with
      | some avg =>
        some
          { id := c0
          , title := c1
          , similarity_score := max 0 (1 - d)
          , avg_rating := avg
          , num_ratings := if c4.truthy then c4 else .nat 0 }
      | none => none
    | none => none
  | _, _, _, _, _ => none

/-- Runs the comprehension over all fetched rows; a single failure aborts the
whole comprehension (the exception propagates to the `except` handler). -/
def buildAll : List Row → Option (List RecOut)
  | [] => some []
  | row :: rows =>
    match buildRec row, buildAll rows with
    | some rec, some recs => some (rec :: recs)
    | _, _ => none

/-- The sort order of `recommendations.sort(key=lambda x: x['similarity_score'],
reverse=True)`: descending similarity. -/
def simLE (a b : RecOut) : Prop :=
  b.similarity_score ≤ a.similarity_score

instance : DecidableRel simLE :=
  fun a b => inferInstanceAs (Decidable (b.similarity_score ≤ a.similarity_score))

instance : IsTotal RecOut simLE :=
  ⟨fun a b => le_total b.similarity_score a.similarity_score⟩

instance : IsTrans RecOut simLE :=
  ⟨fun _ _ _ h1 h2 => le_trans h2 h1⟩

/-- Python's stable sort with `reverse=True`, modelled by stable insertion
sort for the descending-similarity order (ties keep retrieval order). -/
def pySortDesc (l : List RecOut) : List RecOut :=
  l.insertionSort simLE

/-- Python truthiness of the `exclude_book_id` argument: `None` and `0` are
falsy. -/
def pyTruthy : Option Nat → Prop
  | some n => n ≠ 0
  | none => False

instance (o : Option Nat) : Decidable (pyTruthy o) :=
  match o with
  | some n => inferInstanceAs (Decidable (n ≠ 0))
  | none => inferInstanceAs (Decidable False)

/-- The rows `get_book_recommendations` fetches: the exclusion query when
`exclude_book_id` is truthy, otherwise the three-column fallback query. -/
def queryRows (db : DB) (dist : List ℚ → List ℚ → ℚ) (refId lim : Nat)
    (exclude : Option Nat) : List Row :=
  if pyTruthy exclude then exclQueryRows db dist refId (exclude.getD 0) lim
  else noExclRows db dist refId lim

/-- Builds and ranks the records from the fetched rows; a raised exception in
the comprehension reaches the `except` handler: `st.error` once, result `[]`. -/
def recsCore (rows : List Row) : List RecOut × List String :=
  match buildAll rows with
  | some recs => (pySortDesc recs, [])
  | none => ([], ["Error getting recommendations: exception while building rows"])

/-- Embeds `get_book_recommendations` (app.py lines 111-159).  `dist` stands
for the store's `<=>` operator, `fail` models a store exception while
querying (`some e` is a raised exception with message `e`).  Returns the
ranked records and the `st.error` messages. -/
def get_book_recommendations (db : DB) (dist : List ℚ → List ℚ → ℚ)
    (refId lim : Nat) (exclude : Option Nat) (fail : Option String) :
    List RecOut × List String :=
  match fail with
  | some e => ([], ["Error getting recommendations: " ++ e])
  | none => recsCore (queryRows db dist refId lim exclude)

/-! ### The analytics queries of `get_rating_analytics`. -/

/-- A row of the 30-day trend query: bucket date (opaque day number), average
rating, count.  These rows are produced server-side from the timestamp
column, which this model does not track, so they enter as opaque input. -/
abbrev TrendRow := Nat × ℚ × Nat

/-- A row of the top-rated query: title, average rating, rating count. -/
abbrev TopRow := String × ℚ × Nat

/-- `ORDER BY avg_rating DESC, num_ratings DESC` of the top-rated query. -/
def topLE (x y : TopRow) : Prop :=
  y.2.1 < x.2.1 ∨ (x.2.1 = y.2.1 ∧ y.2.2 ≤ x.2.2)

instance : DecidableRel topLE :=
  fun x y => inferInstanceAs (Decidable (y.2.1 < x.2.1 ∨ (x.2.1 = y.2.1 ∧ y.2.2 ≤ x.2.2)))

instance : IsTotal TopRow topLE := by
  constructor
  intro x y
  rcases lt_trichotomy x.2.1 y.2.1 with h | h | h
  · exact Or.inr (Or.inl h)
  · rcases le_total y.2.2 x.2.2 with h2 | h2
    · exact Or.inl (Or.inr ⟨h, h2⟩)
    · exact Or.inr (Or.inr ⟨h.symm, h2⟩)
  · exact Or.inl (Or.inl h)

instance : IsTrans TopRow topLE := by
  constructor
  intro x y z hxy hyz
  rcases hxy with h1 | ⟨h1, h1c⟩
  · rcases hyz with h2 | ⟨h2, _⟩
    · exact Or.inl (lt_trans h2 h1)
    · exact Or.inl (h2 ▸ h1)
  · rcases hyz with h2 | ⟨h2, h2c⟩
    · exact Or.inl (h1 ▸ h2)
    · exact Or.inr ⟨h1.trans h2, le_trans h2c h1c⟩

/-- The grouped-and-filtered rows of the top-rated query: books joined with
their ratings, grouped per book, `HAVING COUNT(r.rating) >= 3` (which also
subsumes the inner join dropping rating-less books). -/
def topGroups (db : DB) : List TopRow :=
  db.books.filterMap (fun b =>
    if 3 ≤ (ratingsOf db b.id).length then
      some (b.title, (ratingsOf db b.id).sum / ((ratingsOf db b.id).length : ℚ),
        (ratingsOf db b.id).length)
    else none)

/-- Result rows of the top-rated query (app.py lines 181-192): the groups
ordered by average descending then count descending, `LIMIT 10`. -/
def topBooksRows (db : DB) : List TopRow :=
  ((topGroups db).insertionSort topLE).take 10

/-- Embeds `get_rating_analytics` (app.py lines 161-201): on success the two
row sets are passed through; on a store failure it reports once via
`st.error` and returns two empty sequences. -/
def get_rating_analytics (fetched : Except String (List TrendRow × List TopRow)) :
    (List TrendRow × List TopRow) × List String :=
  match fetched with
  | .ok p => (p, [])
  | .error e => (([], []), ["Error getting analytics: " ++ e])

/-! ### The distance operator and the concrete scenario databases. -/

/-- Dot product of two embedding vectors (componentwise, truncating at the
shorter one; stored embeddings share one fixed dimensionality). -/
def dotL : List ℚ → List ℚ → ℚ
  | a :: as, b :: bs => a * b + dotL as bs
  | _, _ => 0

/-- Modelled from the spec: the store's cosine-distance operator `<=>` is
provided by the vector extension, not by this repository.  Per the spec it is
a cosine-distance-like metric in `[0,2]` with `0` for identical direction and
orthogonal unit vectors at distance `1`; on unit-norm embeddings cosine
distance is exactly `1 -` the dot product, which is the form used here for
the concrete unit-vector scenarios. -/
def cosDist (a b : List ℚ) : ℚ :=
  1 - dotL a b

/-- The end-to-end scenario store: book A `[1,0,0]`, book B `[1,0,0]` with
five ratings averaging 4.2, book C `[0,1,0]` with no ratings. -/
def db5 : DB :=
  { books :=
      [ { id := 1, title := "A", embedding := some [1, 0, 0] }
      , { id := 2, title := "B", embedding := some [1, 0, 0] }
      , { id := 3, title := "C", embedding := some [0, 1, 0] } ]
  , ratings :=
      [ { book_id := 2, rating := 4 }
      , { book_id := 2, rating := 4 }
      , { book_id := 2, rating := 4 }
      , { book_id := 2, rating := 5 }
      , { book_id := 2, rating := 4 } ] }

/-- A small store for the leaderboard witness: book X has three 5-ratings,
book Y only two (so Y is excluded despite its maximal average). -/
def db9 : DB :=
  { books :=
      [ { id := 1, title := "X", embedding := none }
      , { id := 2, title := "Y", embedding := none } ]
  , ratings :=
      [ { book_id := 1, rating := 5 }
      , { book_id := 1, rating := 5 }
      , { book_id := 1, rating := 5 }
      , { book_id := 2, rating := 5 }
      , { book_id := 2, rating := 5 } ] }

/-- The record `buildRec` produces for a row of the exclusion query, written
directly in terms of the candidate book (proved equal in
`buildRec_exclRow`). -/
def mkRec (db : DB) (dist : List ℚ → List ℚ → ℚ) (re : List ℚ)
    (p : Book × List ℚ) : RecOut :=
  { id := .nat p.1.id
  , title := .str p.1.title
  , similarity_score := max 0 (1 - dist p.2 re)
  , avg_rating :=
      match avgOf (ratingsOf db p.1.id) with
      | none => none
      | some a => if a = 0 then none else some a
  , num_ratings := .nat (ratingsOf db p.1.id).length }

/-! ### Helper lemmas. -/

theorem buildAll_length {rows : List Row} {recs : List RecOut}
    (h : buildAll rows = some recs) : recs.length = rows.length := by
  induction rows generalizing recs with
  | nil => simp [buildAll] at h; simp [← h]
  | cons row rows ih =>
    simp only [buildAll] at h
    cases h1 : buildRec row with
    | none => rw [h1] at h; exact absurd h (by simp)
    | some rec =>
      rw [h1] at h
      cases h2 : buildAll rows with
      | none => rw [h2] at h; exact absurd h (by simp)
      | some recs2 =>
        rw [h2] at h
        simp only [Option.some.injEq] at h
        subst h
        simp [ih h2]

theorem buildAll_mem {rows : List Row} {recs : List RecOut}
    (h : buildAll rows = some recs) {rec : RecOut} (hm : rec ∈ recs) :
    ∃ row ∈ rows, buildRec row = some rec := by
  induction rows generalizing recs with
  | nil => simp [buildAll] at h; subst h; simp at hm
  | cons row rows ih =>
    simp only [buildAll] at h
    cases h1 : buildRec row with
    | none => rw [h1] at h; exact absurd h (by simp)
    | some r =>
      rw [h1] at h
      cases h2 : buildAll rows with
      | none => rw [h2] at h; exact absurd h (by simp)
      | some recs2 =>
        rw [h2] at h
        simp only [Option.some.injEq] at h
        subst h
        rcases List.mem_cons.mp hm with h3 | h3
        · exact ⟨row, List.mem_cons_self row rows, h3 ▸ h1⟩
        · obtain ⟨row2, hr2, hb2⟩ := ih h2 h3
          exact ⟨row2, List.mem_cons_of_mem row hr2, hb2⟩

theorem buildRec_exclRow (db : DB) (dist : List ℚ → List ℚ → ℚ) (re : List ℚ)
    (p : Book × List ℚ) :
    buildRec (exclRow db dist re p) = some (mkRec db dist re p) := by
  simp only [buildRec, exclRow, mkRec, List.get?, Cell.asNum]
  cases h : avgOf (ratingsOf db p.1.id) with
  | none =>
    simp only [avgCell, Cell.truthy]
    rcases Nat.eq_zero_or_pos (ratingsOf db p.1.id).length with h0 | h0
    · simp [h0]
    · simp [Nat.pos_iff_ne_zero.mp h0]
  | some a =>
    simp only [avgCell, Cell.truthy]
    rcases eq_or_ne a 0 with ha | ha
    · subst ha
      rcases Nat.eq_zero_or_pos (ratingsOf db p.1.id).length with h0 | h0
      · simp [h0]
      · simp [Nat.pos_iff_ne_zero.mp h0]
    · rcases Nat.eq_zero_or_pos (ratingsOf db p.1.id).length with h0 | h0
      · simp [h0, ha, cellFloat]
      · simp [Nat.pos_iff_ne_zero.mp h0, ha, cellFloat]

theorem buildAll_map_exclRow (db : DB) (dist : List ℚ → List ℚ → ℚ)
    (re : List ℚ) (l : List (Book × List ℚ)) :
    buildAll (l.map (exclRow db dist re)) = some (l.map (mkRec db dist re)) := by
  induction l with
  | nil => simp [buildAll]
  | cons p l ih => simp [buildAll, buildRec_exclRow, ih]

theorem pySortDesc_perm (l : List RecOut) : (pySortDesc l).Perm l :=
  List.perm_insertionSort simLE l

theorem pySortDesc_sorted (l : List RecOut) : List.Pairwise simLE (pySortDesc l) :=
  List.sorted_insertionSort simLE l

theorem mem_exclCandidates {db : DB} {dist : List ℚ → List ℚ → ℚ} {re : List ℚ}
    {exclId : Nat} {p : Book × List ℚ}
    (h : p ∈ exclCandidates db dist re exclId) :
    p.1.id ≠ exclId ∧ p.1 ∈ db.books := by
  obtain ⟨b, hb, heq⟩ := List.mem_filterMap.mp h
  cases hemb : b.embedding with
  | none => rw [hemb] at heq; exact absurd heq (by simp)
  | some emb =>
    rw [hemb] at heq
    dsimp only at heq
    by_cases hc : b.id ≠ exclId ∧ dist emb re < 2
    · rw [if_pos hc] at heq
      obtain rfl : (b, emb) = p := Option.some.inj heq
      exact ⟨hc.1, hb⟩
    · rw [if_neg hc] at heq
      exact absurd heq (by simp)

theorem queryRows_length_le (db : DB) (dist : List ℚ → List ℚ → ℚ)
    (refId lim : Nat) (exclude : Option Nat) :
    (queryRows db dist refId lim exclude).length ≤ lim := by
  unfold queryRows
  by_cases he : pyTruthy exclude
  · rw [if_pos he]
    unfold exclQueryRows
    cases refEmbOf db refId with
    | none => simp
    | some re =>
      simp only [List.length_map]
      exact List.length_take_le lim (exclCandidates db dist re (exclude.getD 0))
  · rw [if_neg he]
    unfold noExclRows
    cases refEmbOf db refId with
    | none => exact List.length_take_le lim _
    | some re => exact List.length_take_le lim _

theorem noExclRows_length_three {db : DB} {dist : List ℚ → List ℚ → ℚ}
    {refId lim : Nat} {row : Row} (h : row ∈ noExclRows db dist refId lim) :
    row.length = 3 := by
  unfold noExclRows at h
  cases href : refEmbOf db refId with
  | none =>
    rw [href] at h
    obtain ⟨p, _, rfl⟩ := List.mem_map.mp (List.take_subset lim _ h)
    rfl
  | some re =>
    rw [href] at h
    obtain ⟨p, _, rfl⟩ := List.mem_map.mp (List.take_subset lim _ h)
    rfl

theorem buildRec_three {row : Row} (h : row.length = 3) : buildRec row = none := by
  obtain ⟨a, b, c, rfl⟩ := List.length_eq_three.mp h
  rfl

/-! ### Claim theorems. -/

/-- C1: for a fetched row whose distance column holds `d ∈ [0,2]`, the record
built by `get_book_recommendations` carries similarity `max 0 (1 - d)`, which
lies in `[0,1]`; `d = 0` gives similarity `1` and `d ≥ 1` gives `0`. -/
theorem similarity_from_distance (row : Row) (rec : RecOut) (d : ℚ)
    (hrec : buildRec row = some rec) (hd : row.get? 2 = some (.rat d))
    (h0 : 0 ≤ d) (h2 : d ≤ 2) :
    rec.similarity_score = max 0 (1 - d) ∧
    0 ≤ rec.similarity_score ∧ rec.similarity_score ≤ 1 ∧
    (d = 0 → rec.similarity_score = 1) ∧
    (1 ≤ d → rec.similarity_score = 0) := by
  have hs : rec.similarity_score = max 0 (1 - d) := by
    unfold buildRec at hrec
    rw [hd] at hrec
    cases hg0 : row.get? 0 with
    | none => rw [hg0] at hrec; exact absurd hrec (by simp)
    | some c0 =>
    rw [hg0] at hrec
    cases hg1 : row.get? 1 with
    | none => rw [hg1] at hrec; exact absurd hrec (by simp)
    | some c1 =>
    rw [hg1] at hrec
    cases hg3 : row.get? 3 with
    | none => rw [hg3] at hrec; exact absurd hrec (by simp)
    | some c3 =>
    rw [hg3] at hrec
    cases hg4 : row.get? 4 with
    | none => rw [hg4] at hrec; exact absurd hrec (by simp)
    | some c4 =>
    rw [hg4] at hrec
    simp only [Cell.asNum] at hrec
    cases havg : (if c3.truthy then (cellFloat c3).map some else some none) with
    | none => rw [havg] at hrec; exact absurd hrec (by simp)
    | some avg =>
      rw [havg] at hrec
      simp only [Option.some.injEq] at hrec
      rw [← hrec]
  refine ⟨hs, ?_, ?_, ?_, ?_⟩
  · rw [hs]; exact le_max_left 0 (1 - d)
  · rw [hs]; exact max_le (by norm_num) (by linarith)
  · intro hd0; rw [hs, hd0]; norm_num
  · intro hd1; rw [hs]; exact max_eq_left (by linarith)

/-- Witness for C1 at the concrete row `(2, "B", 0.0, NULL, 0)`. -/
theorem similarity_from_distance_witness :
    ({ id := Cell.nat 2, title := Cell.str "B"
     , similarity_score := max 0 (1 - (0 : ℚ))
     , avg_rating := none, num_ratings := Cell.nat 0 } : RecOut).similarity_score = 1 :=
  (similarity_from_distance
    [Cell.nat 2, Cell.str "B", Cell.rat 0, Cell.null, Cell.nat 0]
    { id := Cell.nat 2, title := Cell.str "B"
    , similarity_score := max 0 (1 - (0 : ℚ))
    , avg_rating := none, num_ratings := Cell.nat 0 }
    0 rfl rfl (by norm_num) (by norm_num)).2.2.2.1 rfl

/-- C2: every list `get_book_recommendations` returns is sorted by similarity
score descending (every pair, in particular every adjacent pair, satisfies
`similarity(r_i) ≥ similarity(r_j)` for `i < j`). -/
theorem recommendations_sorted (db : DB) (dist : List ℚ → List ℚ → ℚ)
    (refId lim : Nat) (exclude : Option Nat) (fail : Option String) :
    List.Pairwise simLE (get_book_recommendations db dist refId lim exclude fail).1 := by
  unfold get_book_recommendations
  cases fail with
  | some e => simp
  | none =>
    unfold recsCore
    cases h : buildAll (queryRows db dist refId lim exclude) with
    | none => simp
    | some recs => simpa using pySortDesc_sorted recs

/-- C5: in the scenario store (A `[1,0,0]`; B identical to A with five
ratings averaging 4.2; C orthogonal to A with no ratings), recommendations
for A with limit 10 excluding A are exactly B (similarity 1, average 21/5,
count 5) then C (similarity 0, average NULL, count 0), with no error. -/
theorem scenario_end_to_end :
    get_book_recommendations db5 cosDist 1 10 (some 1) none =
      ( [ { id := .nat 2, title := .str "B", similarity_score := 1
          , avg_rating := some (21/5), num_ratings := .nat 5 }
        , { id := .nat 3, title := .str "C", similarity_score := 0
          , avg_rating := none, num_ratings := .nat 0 } ]
      , [] ) := by
  norm_num [get_book_recommendations, recsCore, queryRows, pyTruthy, exclQueryRows,
    refEmbOf, exclCandidates, exclRow, cosDist, dotL, avgOf, ratingsOf, avgCell,
    buildAll, buildRec, Cell.truthy, Cell.asNum, cellFloat, pySortDesc,
    List.insertionSort, List.orderedInsert, simLE, db5, List.filterMap_cons]

/-- C7 counterexample: a store failure inside `get_book_rating` is swallowed
silently — the neutral result `(None, 0)` comes back with an empty error
signal list, so not every operation reports its failure to the caller. -/
theorem rating_failure_swallowed :
    (get_book_rating (Except.error "store failure")).1 = (none, 0) ∧
    (get_book_rating (Except.error "store failure")).2 = [] :=
  ⟨rfl, rfl⟩

/-- C7 (amended): on a store failure every operation returns its neutral or
empty result without retrying; `get_all_books`, `get_book_embedding`,
`get_book_recommendations` and `get_rating_analytics` report the failure
exactly once via an error signal, while `get_book_rating` reports nothing. -/
theorem failures_reported_once (e : String) (db : DB)
    (dist : List ℚ → List ℚ → ℚ) (refId lim : Nat) (exclude : Option Nat) :
    get_all_books (Except.error e) = ([], ["Error getting books: " ++ e]) ∧
    get_book_embedding (Except.error e) =
      (none, ["Error getting book embedding: " ++ e]) ∧
    get_book_recommendations db dist refId lim exclude (some e) =
      ([], ["Error getting recommendations: " ++ e]) ∧
    get_rating_analytics (Except.error e) =
      (([], []), ["Error getting analytics: " ++ e]) ∧
    get_book_rating (Except.error e) = ((none, 0), []) :=
  ⟨rfl, rfl, rfl, rfl, rfl⟩

/-- C8: an unrecognized (neither text nor sequence) embedding value is
returned raw and unchanged; non-empty text encodings that parse are
normalized to the parsed float list; non-empty native sequences are
normalized to a list — all without an error. -/
theorem embedding_decoding (t : Nat) (xs : List ℚ) (s : String) (q : List ℚ)
    (hxs : xs ≠ []) (hs : s ≠ "") (hp : parseEmbeddingText s = some q) :
    get_book_embedding (Except.ok (some (.other t))) = (some (.raw t), []) ∧
    get_book_embedding (Except.ok (some (.seq xs))) = (some (.floats xs), []) ∧
    get_book_embedding (Except.ok (some (.text s))) = (some (.floats q), []) := by
  refine ⟨rfl, ?_, ?_⟩
  · simp only [get_book_embedding]
    rw [if_pos (show (StoredVal.seq xs).truthy from hxs)]
  · simp only [get_book_embedding]
    rw [if_pos (show (StoredVal.text s).truthy from hs)]
    simp only [hp]

/-- Witness for C8: an opaque value with tag 7, the sequence `[1,2]`, and the
text encoding `"[1.5,2]"`. -/
theorem embedding_decoding_witness :
    get_book_embedding (Except.ok (some (.other 7))) = (some (.raw 7), []) ∧
    get_book_embedding (Except.ok (some (.seq [1, 2]))) = (some (.floats [1, 2]), []) ∧
    get_book_embedding (Except.ok (some (.text "[1.5,2]"))) =
      (some (.floats [(15 : ℚ)/10^1, 2]), []) :=
  embedding_decoding 7 [1, 2] "[1.5,2]" [(15 : ℚ)/10^1, 2]
    (by simp) (by decide) rfl

/-- C3: when `get_book_recommendations` is called with a (truthy) exclusion
id, no returned record carries that id. -/
theorem excluded_id_absent (db : DB) (dist : List ℚ → List ℚ → ℚ)
    (refId lim e : Nat) (fail : Option String) (he : e ≠ 0) (rec : RecOut)
    (hmem : rec ∈ (get_book_recommendations db dist refId lim (some e) fail).1) :
    rec.id ≠ Cell.nat e := by
  unfold get_book_recommendations at hmem
  cases fail with
  | some msg => simp at hmem
  | none =>
    unfold recsCore at hmem
    cases hba : buildAll (queryRows db dist refId lim (some e)) with
    | none => rw [hba] at hmem; simp at hmem
    | some recs =>
      rw [hba] at hmem
      have hmem2 : rec ∈ recs := (pySortDesc_perm recs).mem_iff.mp hmem
      rw [show queryRows db dist refId lim (some e) = exclQueryRows db dist refId e lim from by
        unfold queryRows; rw [if_pos (show pyTruthy (some e) from he)]; rfl] at hba
      obtain ⟨row, hrow, hbr⟩ := buildAll_mem hba hmem2
      unfold exclQueryRows at hrow
      cases href : refEmbOf db refId with
      | none => rw [href] at hrow; simp at hrow
      | some re =>
        rw [href] at hrow
        obtain ⟨p, hp, rfl⟩ := List.mem_map.mp hrow
        have hid := (mem_exclCandidates (List.take_subset lim _ hp)).1
        rw [buildRec_exclRow] at hbr
        obtain rfl : mkRec db dist re p = rec := Option.some.inj hbr
        simpa [mkRec] using hid

/-- Witness for C3: in the scenario store, the first returned record does
not carry the excluded id 1. -/
theorem excluded_id_absent_witness :
    ({ id := .nat 2, title := .str "B", similarity_score := 1
     , avg_rating := some (21/5), num_ratings := .nat 5 } : RecOut).id ≠ Cell.nat 1 :=
  excluded_id_absent db5 cosDist 1 10 1 none (by norm_num)
    { id := .nat 2, title := .str "B", similarity_score := 1
    , avg_rating := some (21/5), num_ratings := .nat 5 }
    (by norm_num [get_book_recommendations, recsCore, queryRows, pyTruthy,
      exclQueryRows, refEmbOf, exclCandidates, exclRow, cosDist, dotL, avgOf,
      ratingsOf, avgCell, buildAll, buildRec, Cell.truthy, Cell.asNum, cellFloat,
      pySortDesc, List.insertionSort, List.orderedInsert, simLE, db5,
      List.filterMap_cons])

/-- C4: with a positive limit the returned list has at most `limit` records,
and (in the normal exclusion branch) it is a permutation of the records
built from the candidate set capped at `limit` rows before the similarity
sort — ranking happens on the pre-capped sample. -/
theorem limit_caps_before_ranking (db : DB) (dist : List ℚ → List ℚ → ℚ)
    (refId lim : Nat) (exclude : Option Nat) (fail : Option String)
    (hlim : 0 < lim) :
    (get_book_recommendations db dist refId lim exclude fail).1.length ≤ lim ∧
    (∀ e re, exclude = some e → e ≠ 0 → fail = none →
      refEmbOf db refId = some re →
      (get_book_recommendations db dist refId lim exclude fail).1.Perm
        (((exclCandidates db dist re e).take lim).map (mkRec db dist re))) := by
  constructor
  · unfold get_book_recommendations
    cases fail with
    | some msg => simp
    | none =>
      unfold recsCore
      cases hba : buildAll (queryRows db dist refId lim exclude) with
      | none => simp
      | some recs =>
        dsimp only
        calc (pySortDesc recs).length
            = recs.length := (pySortDesc_perm recs).length_eq
          _ = (queryRows db dist refId lim exclude).length := buildAll_length hba
          _ ≤ lim := queryRows_length_le db dist refId lim exclude
  · rintro e re rfl he rfl href
    unfold get_book_recommendations recsCore
    have hq : queryRows db dist refId lim (some e) =
        ((exclCandidates db dist re e).take lim).map (exclRow db dist re) := by
      unfold queryRows
      rw [if_pos (show pyTruthy (some e) from he)]
      unfold exclQueryRows
      rw [href]
      rfl
    rw [hq, buildAll_map_exclRow]
    exact pySortDesc_perm _

/-- Witness for C4 at the scenario store with limit 10. -/
theorem limit_caps_before_ranking_witness :
    (get_book_recommendations db5 cosDist 1 10 (some 1) none).1.length ≤ 10 ∧
    (get_book_recommendations db5 cosDist 1 10 (some 1) none).1.Perm
      (((exclCandidates db5 cosDist [1, 0, 0] 1).take 10).map
        (mkRec db5 cosDist [1, 0, 0])) := by
  have h := limit_caps_before_ranking db5 cosDist 1 10 (some 1) none (by norm_num)
  exact ⟨h.1, h.2 1 [1, 0, 0] rfl (by norm_num) rfl rfl⟩

/-- C6: an item with zero ratings gets `(None, 0)` from `get_book_rating`
(not a zero average, not an error), and when it qualifies as a capped
candidate it still appears in the recommendation output, with `avg_rating`
absent and rating count 0, rather than being dropped. -/
theorem zero_ratings_kept (db : DB) (id : Nat) (h : ratingsOf db id = []) :
    get_book_rating (Except.ok (ratingAgg db id)) = ((none, 0), []) ∧
    ∀ (dist : List ℚ → List ℚ → ℚ) (refId e lim : Nat) (b : Book)
      (emb re : List ℚ),
      b.id = id → e ≠ 0 → refEmbOf db refId = some re →
      (b, emb) ∈ (exclCandidates db dist re e).take lim →
      mkRec db dist re (b, emb) ∈
        (get_book_recommendations db dist refId lim (some e) none).1 ∧
      (mkRec db dist re (b, emb)).avg_rating = none ∧
      (mkRec db dist re (b, emb)).num_ratings = Cell.nat 0 := by
  constructor
  · unfold ratingAgg
    rw [h]
    simp [avgOf, get_book_rating]
  · rintro dist refId e lim b emb re rfl he href hmem
    refine ⟨?_, ?_, ?_⟩
    · unfold get_book_recommendations recsCore
      have hq : queryRows db dist refId lim (some e) =
          ((exclCandidates db dist re e).take lim).map (exclRow db dist re) := by
        unfold queryRows
        rw [if_pos (show pyTruthy (some e) from he)]
        unfold exclQueryRows
        rw [href]
        rfl
      rw [hq, buildAll_map_exclRow]
      exact (pySortDesc_perm _).mem_iff.mpr
        (List.mem_map_of_mem (mkRec db dist re) hmem)
    · simp [mkRec, h, avgOf]
    · simp [mkRec, h]

/-- Witness for C6: book C of the scenario store has zero ratings and still
shows up in the output with a NULL average and count 0. -/
theorem zero_ratings_kept_witness :
    get_book_rating (Except.ok (ratingAgg db5 3)) = ((none, 0), []) ∧
    mkRec db5 cosDist [1, 0, 0] ({ id := 3, title := "C", embedding := some [0, 1, 0] }, [0, 1, 0]) ∈
      (get_book_recommendations db5 cosDist 1 10 (some 1) none).1 ∧
    (mkRec db5 cosDist [1, 0, 0] ({ id := 3, title := "C", embedding := some [0, 1, 0] }, [0, 1, 0])).avg_rating = none ∧
    (mkRec db5 cosDist [1, 0, 0] ({ id := 3, title := "C", embedding := some [0, 1, 0] }, [0, 1, 0])).num_ratings = Cell.nat 0 := by
  have h := zero_ratings_kept db5 3 rfl
  have h2 := h.2 cosDist 1 1 10 { id := 3, title := "C", embedding := some [0, 1, 0] }
    [0, 1, 0] [1, 0, 0] rfl (by norm_num) rfl
    (by norm_num [exclCandidates, db5, cosDist, dotL, List.filterMap_cons])
  exact ⟨h.1, h2.1, h2.2.1, h2.2.2⟩

/-- C9: the top-rated leaderboard has at most 10 rows, is ordered by average
rating descending then rating count descending, and every row belongs to a
stored book with at least 3 ratings (its count column being that book's true
rating count); `get_rating_analytics` passes these rows through unchanged. -/
theorem top_rated_leaderboard (db : DB) :
    (topBooksRows db).length ≤ 10 ∧
    List.Pairwise topLE (topBooksRows db) ∧
    (∀ x, x ∈ topBooksRows db →
      3 ≤ x.2.2 ∧ ∃ b ∈ db.books, x.1 = b.title ∧ x.2.2 = (ratingsOf db b.id).length) ∧
    (∀ trend rows, (get_rating_analytics (Except.ok (trend, rows))).1.2 = rows) := by
  refine ⟨?_, ?_, ?_, fun trend rows => rfl⟩
  · unfold topBooksRows
    exact List.length_take_le _ _
  · unfold topBooksRows
    exact List.Pairwise.sublist (List.take_sublist _ _)
      (List.sorted_insertionSort topLE (topGroups db))
  · intro x hx
    unfold topBooksRows at hx
    have hx2 : x ∈ topGroups db :=
      (List.perm_insertionSort topLE _).mem_iff.mp (List.take_subset _ _ hx)
    obtain ⟨b, hb, heq⟩ := List.mem_filterMap.mp hx2
    by_cases hc : 3 ≤ (ratingsOf db b.id).length
    · rw [if_pos hc] at heq
      obtain rfl := Option.some.inj heq
      exact ⟨hc, b, hb, rfl, rfl⟩
    · rw [if_neg hc] at heq
      exact absurd heq (by simp)

/-- Witness for C9: in `db9`, the leaderboard row for book X (three
5-ratings) satisfies the minimum-count guarantee. -/
theorem top_rated_leaderboard_witness :
    3 ≤ (("X", (5 : ℚ), 3) : TopRow).2.2 ∧
    ∃ b ∈ db9.books, (("X", (5 : ℚ), 3) : TopRow).1 = b.title ∧
      (("X", (5 : ℚ), 3) : TopRow).2.2 = (ratingsOf db9 b.id).length :=
  (top_rated_leaderboard db9).2.2.1 ("X", (5 : ℚ), 3)
    (by norm_num [topBooksRows, topGroups, db9, ratingsOf, List.filterMap_cons,
      List.insertionSort, List.orderedInsert])

/-- C10: with a falsy `exclude_book_id` (`None` or 0) and a non-empty result
of the three-column fallback query, `get_book_recommendations` returns the
empty list together with one error signal: the builder reads columns 3 and 4
which the fallback query does not select, and the raised `IndexError` is
converted by the `except` handler into an empty result. -/
theorem falsy_exclusion_returns_empty (db : DB) (dist : List ℚ → List ℚ → ℚ)
    (refId lim : Nat) (exclude : Option Nat) (hex : ¬ pyTruthy exclude)
    (hne : noExclRows db dist refId lim ≠ []) :
    (get_book_recommendations db dist refId lim exclude none).1 = [] ∧
    (get_book_recommendations db dist refId lim exclude none).2.length = 1 := by
  unfold get_book_recommendations recsCore
  have hq : queryRows db dist refId lim exclude = noExclRows db dist refId lim := by
    unfold queryRows
    rw [if_neg hex]
  rw [hq]
  cases hrows : noExclRows db dist refId lim with
  | nil => exact absurd hrows hne
  | cons row rows =>
    have h3 : buildRec row = none :=
      buildRec_three (noExclRows_length_three (hrows ▸ List.mem_cons_self row rows))
    simp [buildAll, h3]

/-- Witness for C10: the scenario store with `exclude_book_id = None`. -/
theorem falsy_exclusion_returns_empty_witness :
    (get_book_recommendations db5 cosDist 1 10 none none).1 = [] ∧
    (get_book_recommendations db5 cosDist 1 10 none none).2.length = 1 :=
  falsy_exclusion_returns_empty db5 cosDist 1 10 none (by simp [pyTruthy])
    (by
      have hrows : noExclRows db5 cosDist 1 10 =
          [ [Cell.nat 1, Cell.str "A", Cell.rat 0]
          , [Cell.nat 2, Cell.str "B", Cell.rat 0]
          , [Cell.nat 3, Cell.str "C", Cell.rat 1] ] := by
        norm_num [noExclRows, refEmbOf, embBooks, db5, rowOrder, cosDist, dotL,
          List.insertionSort, List.orderedInsert, List.filterMap_cons]
      simp [hrows])

end BookstoreApp
